import Mathlib

/-!
# Entitlement logic of `index.js`

A shallow embedding of the request handlers of `src/index.js` (trial activation, premium
grant and refresh, the subscription check, the notification and AI endpoints) together with
the properties of the entitlement state machine proved about them.

Conventions of the embedding.

* Every handler is a pure function of the request body and of a `World`: the answers the
  outside collaborators (identity provider, subscription authority, clock, environment,
  notification and text-generation providers) give during that one request.  A handler
  returns the HTTP response and the list of outbound calls it made, in order.
* Timestamps are integers (epoch milliseconds).  JavaScript numbers are doubles; every
  timestamp a `Date` can hold and every sum and difference formed here stays far below
  `2^53`, where double arithmetic on integers is exact.
* Attribute values are the JSON scalars the program itself reads and writes under the three
  entitlement keys: `null`, booleans and integers; a missing property reads as `undefined`.
  String- and object-valued attributes are outside the model.
-/

namespace Chklstly

/-! ## JavaScript values and the attribute bag -/

/-- A JavaScript value of the kinds stored under the entitlement keys. -/
inductive JsVal where
  | undefined
  | null
  | bool (b : Bool)
  | num (n : Int)
  deriving DecidableEq, Repr

/-- JavaScript truthiness (`!!v`): `undefined`, `null`, `false` and `0` are falsy. -/
def truthy : JsVal → Bool
  | .undefined => false
  | .null => false
  | .bool b => b
  | .num n => decide (n ≠ 0)

/-- The test `v != null` (loose): false exactly for `null` and `undefined`. -/
def notNull : JsVal → Bool
  | .undefined => false
  | .null => false
  | _ => true

/-- The operator `v ?? d`. -/
def nullish (v d : JsVal) : JsVal :=
  match v with
  | .undefined => d
  | .null => d
  | _ => v

/-- The abstract operation `ToNumber`; `none` stands for `NaN`. -/
def toNumber : JsVal → Option Int
  | .undefined => none
  | .null => some 0
  | .bool b => some (if b then 1 else 0)
  | .num n => some n

/-- The comparison `now > v` for a number `now`; any comparison with `NaN` is false. -/
def numGt (now : Int) (v : JsVal) : Bool :=
  match toNumber v with
  | some n => decide (now > n)
  | none => false

/-- The comparison `now - v < bound` for numbers `now` and `bound`. -/
def diffLt (now : Int) (v : JsVal) (bound : Int) : Bool :=
  match toNumber v with
  | some n => decide (now - n < bound)
  | none => false

/-- An attribute bag (`app_metadata`, or the decoded claims of an ID token): a JavaScript
object as a list of own properties. -/
abbrev Bag := List (String × JsVal)

/-- Own-property lookup; `none` when the object has no such property. -/
def lookupProp : Bag → String → Option JsVal
  | [], _ => none
  | (k, v) :: rest, key => if k = key then some v else lookupProp rest key

/-- Property read `m.key`: a missing property reads as `undefined`. -/
def getProp (m : Bag) (key : String) : JsVal :=
  match lookupProp m key with
  | some v => v
  | none => .undefined

/-- One `key: v` entry of an object literal placed after a spread `...m`: the property is
overwritten when present and added otherwise; every other property is copied. -/
def setProp : Bag → String → JsVal → Bag
  | [], key, v => [(key, v)]
  | (k, x) :: rest, key, v =>
    if k = key then (k, v) :: rest else (k, x) :: setProp rest key v

/-! ## Collaborators -/

/-- The user object returned by the identity provider.  `created_at` is the value of
`new Date(user.created_at).getTime()`; `app_metadata` is `none` when the property is
missing or `null`. -/
structure User where
  id : String
  email : Option String
  created_at : Int
  app_metadata : Option Bag
  deriving DecidableEq, Repr

/-- Outcome of `supabase.auth.getUser(accessToken)`. -/
inductive GetUserResult where
  | throws
  | failed
  | user (u : User)
  deriving DecidableEq, Repr

/-- Outcome of `supabase.auth.admin.updateUserById`. -/
inductive UpdateResult where
  | throws
  | error
  | ok
  deriving DecidableEq, Repr

/-- A `starts_at` / `expires_at` property of an access level, by what the code does with
it: `missing` is any falsy value (absent, `null`, empty string), `invalid` a value that
`new Date` turns into an invalid date (its time value is `NaN`), `time ms` a date. -/
inductive DateField where
  | missing
  | invalid
  | time (ms : Int)
  deriving DecidableEq, Repr

/-- One element of `data.access_levels`. -/
structure AccessLevel where
  starts_at : DateField
  expires_at : DateField
  deriving DecidableEq, Repr

/-- The parsed body of the subscription authority.  `access_levels` is `none` when
`adaptyData?.data?.access_levels` is missing or is not an array; the elements of the array
are objects, as the authority sends them. -/
structure AdaptyData where
  access_levels : Option (List AccessLevel)
  deriving DecidableEq, Repr

/-- Outcome of the `fetch` to the subscription authority followed by reading its body:
`throws` is a transport error (the `fetch` promise rejects), `notOk errText` a response
with `ok == false` (`errText` is `none` when reading the text fails), `okUnparsable` a
success response whose body is not JSON, `ok data` a success response. -/
inductive AdaptyResult where
  | throws
  | notOk (errText : Option String)
  | okUnparsable
  | ok (data : AdaptyData)
  deriving DecidableEq, Repr

/-- Outcome of `admin.auth().verifyIdToken(idToken)`. -/
inductive VerifyResult where
  | throws (message : String)
  | decoded (uid : String) (claims : Bag)
  deriving DecidableEq, Repr

/-- Outcome of the chat completion and of reading `choices[0].message.content`; `content
none` is a falsy content (`null` or the empty string). -/
inductive CompletionResult where
  | throws (message : String)
  | content (text : Option String)
  deriving DecidableEq, Repr

/-- Outcome of the notification `fetch` and of `r.json()`. -/
inductive PushResult where
  | throws
  | json (body : String)
  deriving DecidableEq, Repr

/-- Everything the outside answers during one request. -/
structure World where
  getUser : GetUserResult
  now : Int
  skipAdaptyEmails : Option String
  adapty : AdaptyResult
  checkNow : Int
  update : UpdateResult
  verifyIdToken : VerifyResult
  completion : CompletionResult
  push : PushResult
  deriving DecidableEq, Repr

/-- An outbound call made by a handler. -/
inductive Effect where
  | getUser (accessToken : String)
  | updateUserById (uid : String) (app_metadata : Bag)
  | adaptyFetch (uid : String)
  | verifyIdToken (idToken : String)
  | chatCompletion (uid : String) (userPrompt : String)
  | pushPost (userUids : String) (checklistId : Option String)
  deriving DecidableEq, Repr

/-- A JSON response body. -/
inductive Body where
  | error (message : String)
  | trial (trialExpireDate : Int)
  | premium (hasPremium : Bool)
  | skipped (reason : String)
  | updated (hasPremium : Bool)
  | provider (json : String)
  | suggestions (text : String)
  deriving DecidableEq, Repr

/-- An HTTP response: `res.json(b)` alone answers with status 200. -/
structure Response where
  status : Nat
  body : Body
  deriving DecidableEq, Repr

/-- What a handler did: its response and its outbound calls in order. -/
structure Outcome where
  response : Response
  effects : List Effect
  deriving DecidableEq, Repr

/-- The bags passed to `updateUserById` in a list of calls. -/
def writes : List Effect → List Bag
  | [] => []
  | .updateUserById _ m :: rest => m :: writes rest
  | _ :: rest => writes rest

/-- The number of calls to the subscription authority in a list of calls. -/
def authorityCalls : List Effect → Nat
  | [] => 0
  | .adaptyFetch _ :: rest => authorityCalls rest + 1
  | _ :: rest => authorityCalls rest

/-! ## `POST /trial` -/

/-- Body of a request that carries only the credential; `none` is a missing field, and an
empty string is falsy like a missing one. -/
structure TokenRequest where
  accessToken : Option String
  deriving DecidableEq, Repr

/-- The handler of `POST /trial` (index.js lines 28 to 68). -/
def postTrial (req : TokenRequest) (w : World) : Outcome :=
  match req.accessToken with
  | none => ⟨⟨400, .error "No accessToken provided"⟩, []⟩
  | some accessToken =>
    if accessToken = "" then ⟨⟨400, .error "No accessToken provided"⟩, []⟩
    else
      match w.getUser with
      | .throws => ⟨⟨500, .error "Failed to set trial"⟩, [.getUser accessToken]⟩
      | .failed => ⟨⟨401, .error "Invalid token"⟩, [.getUser accessToken]⟩
      | .user user =>
        let uid := user.id
        let metadata : Bag := user.app_metadata.getD []
        if notNull (getProp metadata "trialExpireDate") then
          ⟨⟨400, .error "Trial already set"⟩, [.getUser accessToken]⟩
        else
          let createdAtMs := user.created_at
          let trialExpireDate := createdAtMs + 7 * 24 * 60 * 60 * 1000
          let app_metadata :=
            setProp (setProp metadata "trialExpireDate" (.num trialExpireDate))
              "hasPremium" (nullish (getProp metadata "hasPremium") (.bool false))
          let calls := [Effect.getUser accessToken, Effect.updateUserById uid app_metadata]
          match w.update with
          | .throws => ⟨⟨500, .error "Failed to set trial"⟩, calls⟩
          | .error => ⟨⟨500, .error "Failed to update trial data"⟩, calls⟩
          | .ok => ⟨⟨200, .trial trialExpireDate⟩, calls⟩

/-! ## The subscription check and the allow-list -/

/-- The function `hasActiveSubscription` (index.js lines 212 to 231); `now` is the value
of `new Date()` read inside it. -/
def hasActiveSubscription (adaptyData : AdaptyData) (now : Int) : Bool :=
  match adaptyData.access_levels with
  | none => false
  | some access_levels =>
    access_levels.any fun level =>
      let hasStarted :=
        match level.starts_at with
        | .missing => true
        | .invalid => false
        | .time startsAt => decide (now ≥ startsAt)
      let notExpired :=
        match level.expires_at with
        | .missing => true
        | .invalid => false
        | .time expiresAt => decide (now ≤ expiresAt)
      hasStarted && notExpired

/-- The characters `String.prototype.trim` removes: white space and line terminators. -/
def isJsSpace (c : Char) : Bool :=
  c.val = 0x09 || c.val = 0x0A || c.val = 0x0B || c.val = 0x0C || c.val = 0x0D ||
  c.val = 0x20 || c.val = 0xA0 || c.val = 0x1680 || (0x2000 ≤ c.val && c.val ≤ 0x200A) ||
  c.val = 0x2028 || c.val = 0x2029 || c.val = 0x202F || c.val = 0x205F ||
  c.val = 0x3000 || c.val = 0xFEFF

/-- The method `s.trim()`. -/
def jsTrim (s : String) : String :=
  ⟨((s.data.dropWhile isJsSpace).reverse.dropWhile isJsSpace).reverse⟩

/-- The method `s.toLowerCase()`, on ASCII letters. -/
def jsToLowerCase (s : String) : String :=
  ⟨s.data.map Char.toLower⟩

/-- The method `s.split(',')` on the characters of `s`. -/
def splitComma : List Char → List (List Char)
  | [] => [[]]
  | c :: cs =>
    match splitComma cs with
    | [] => [[]]
    | first :: rest => if c = ',' then [] :: first :: rest else (c :: first) :: rest

/-- The list built at index.js lines 160 to 163 from `process.env.SKIP_ADAPTY_EMAILS`:
`(v || '').split(',').map(e => e.trim().toLowerCase()).filter(Boolean)`. -/
def parseSkipEmails (v : Option String) : List String :=
  (((splitComma (v.getD "").data).map fun e => jsToLowerCase (jsTrim ⟨e⟩)).filter
    fun e => decide (e ≠ ""))

/-- The test `skipEmails.includes(userEmail?.toLowerCase())`: with no email the argument is
`undefined`, which a list of strings does not include. -/
def includesEmail (skipEmails : List String) (userEmail : Option String) : Bool :=
  match userEmail with
  | none => false
  | some e => skipEmails.contains (jsToLowerCase e)

/-! ## Identifiers the module does not declare

Two handlers use an identifier that index.js neither imports nor declares at module level:
`skipEmails` in `POST /premium` (the only declaration is the `const` local to the handler
of `PUT /premium`) and `admin` in the two AI handlers.  Evaluating such an identifier
throws a `ReferenceError`; in all three places this happens inside the handler's `try`.
`Globals` records what those identifiers resolve to, `moduleGlobals` is what index.js
itself provides. -/

/-- What the free identifiers `skipEmails` and `admin` resolve to; `none` and `false` mean
that the identifier is unresolvable. -/
structure Globals where
  skipEmails : Option (List String)
  admin : Bool
  deriving DecidableEq, Repr

/-- The bindings index.js provides: neither identifier is declared. -/
def moduleGlobals : Globals := ⟨none, false⟩

/-! ## `POST /premium` and `PUT /premium` -/

/-- Lines 111 to 125 of `POST /premium`: persist a grant, then answer. `calls` are the
calls made so far. -/
def postPremiumFinish (uid : String) (metadata : Bag) (hasPremium : Bool) (w : World)
    (calls : List Effect) : Outcome :=
  if hasPremium then
    let app_metadata :=
      setProp (setProp metadata "hasPremium" (.bool true))
        "trialExpireDate" (nullish (getProp metadata "trialExpireDate") .null)
    let calls := calls ++ [Effect.updateUserById uid app_metadata]
    match w.update with
    | .throws => ⟨⟨500, .error "Failed to update premium status"⟩, calls⟩
    | .error => ⟨⟨500, .error "Failed to update premium status"⟩, calls⟩
    | .ok => ⟨⟨200, .premium hasPremium⟩, calls⟩
  else ⟨⟨200, .premium hasPremium⟩, calls⟩

/-- The handler of `POST /premium` (index.js lines 70 to 130). -/
def postPremium (g : Globals) (req : TokenRequest) (w : World) : Outcome :=
  match req.accessToken with
  | none => ⟨⟨400, .error "No accessToken provided"⟩, []⟩
  | some accessToken =>
    if accessToken = "" then ⟨⟨400, .error "No accessToken provided"⟩, []⟩
    else
      match w.getUser with
      | .throws => ⟨⟨500, .error "Failed to update premium status"⟩, [.getUser accessToken]⟩
      | .failed => ⟨⟨401, .error "Invalid token"⟩, [.getUser accessToken]⟩
      | .user user =>
        let uid := user.id
        let metadata : Bag := user.app_metadata.getD []
        let userEmail := user.email
        if getProp metadata "hasPremium" = .bool true then
          ⟨⟨400, .error "Premium already set"⟩, [.getUser accessToken]⟩
        else
          match g.skipEmails with
          | none =>
            ⟨⟨500, .error "Failed to update premium status"⟩, [.getUser accessToken]⟩
          | some skipEmails =>
            if includesEmail skipEmails userEmail then
              postPremiumFinish uid metadata true w [.getUser accessToken]
            else
              let calls := [Effect.getUser accessToken, Effect.adaptyFetch uid]
              match w.adapty with
              | .throws => ⟨⟨500, .error "Failed to update premium status"⟩, calls⟩
              | .notOk (some _) =>
                ⟨⟨500, .error "Failed to fetch subscription from Adapty"⟩, calls⟩
              | .notOk none => ⟨⟨500, .error "Failed to update premium status"⟩, calls⟩
              | .okUnparsable => ⟨⟨500, .error "Failed to update premium status"⟩, calls⟩
              | .ok adaptyData =>
                postPremiumFinish uid metadata (hasActiveSubscription adaptyData w.checkNow)
                  w calls

/-- The object `updatedMetadata` built at index.js lines 189 to 194. -/
def updatedMetadata (metadata : Bag) (now : Int) (hasPremium : Bool) : Bag :=
  setProp
    (setProp
      (setProp metadata "trialExpireDate" (nullish (getProp metadata "trialExpireDate") .null))
      "hasPremium" (.bool hasPremium))
    "lastSubscriptionCheck" (.num now)

/-- Lines 188 to 205 of `PUT /premium`: the merge write and the answer. -/
def putPremiumFinish (uid : String) (metadata : Bag) (now : Int) (hasPremium : Bool)
    (w : World) (calls : List Effect) : Outcome :=
  let calls := calls ++ [Effect.updateUserById uid (updatedMetadata metadata now hasPremium)]
  match w.update with
  | .throws => ⟨⟨500, .error "Failed to update premium status"⟩, calls⟩
  | .error => ⟨⟨500, .error "Failed to update user metadata"⟩, calls⟩
  | .ok => ⟨⟨200, .updated hasPremium⟩, calls⟩

/-- The handler of `PUT /premium` (index.js lines 133 to 210). -/
def putPremium (req : TokenRequest) (w : World) : Outcome :=
  match req.accessToken with
  | none => ⟨⟨400, .error "No accessToken provided"⟩, []⟩
  | some accessToken =>
    if accessToken = "" then ⟨⟨400, .error "No accessToken provided"⟩, []⟩
    else
      match w.getUser with
      | .throws => ⟨⟨500, .error "Failed to update premium status"⟩, [.getUser accessToken]⟩
      | .failed => ⟨⟨401, .error "Invalid token"⟩, [.getUser accessToken]⟩
      | .user user =>
        let uid := user.id
        let metadata : Bag := user.app_metadata.getD []
        let userEmail := user.email
        let now := w.now
        if !truthy (getProp metadata "hasPremium") then
          ⟨⟨200, .skipped "No hasPremium metadata"⟩, [.getUser accessToken]⟩
        else if truthy (getProp metadata "lastSubscriptionCheck") &&
            diffLt now (getProp metadata "lastSubscriptionCheck") (24 * 60 * 60 * 1000) then
          ⟨⟨200, .skipped "Checked less than 24h ago"⟩, [.getUser accessToken]⟩
        else
          let skipEmails := parseSkipEmails w.skipAdaptyEmails
          if includesEmail skipEmails userEmail then
            putPremiumFinish uid metadata now true w [.getUser accessToken]
          else
            let calls := [Effect.getUser accessToken, Effect.adaptyFetch uid]
            match w.adapty with
            | .throws => ⟨⟨500, .error "Failed to update premium status"⟩, calls⟩
            | .notOk _ => putPremiumFinish uid metadata now false w calls
            | .okUnparsable => ⟨⟨500, .error "Failed to update premium status"⟩, calls⟩
            | .ok adaptyData =>
              putPremiumFinish uid metadata now (hasActiveSubscription adaptyData w.checkNow)
                w calls

/-! ## The access gate and the gated endpoints -/

/-- The condition under which a gated handler answers 403, written out three times in
index.js (lines 256, 320 and 398):
`!m.hasPremium && (!m.trialExpireDate || now > m.trialExpireDate)`. -/
def noPermissions (m : Bag) (now : Int) : Bool :=
  !truthy (getProp m "hasPremium") &&
    (!truthy (getProp m "trialExpireDate") || numGt now (getProp m "trialExpireDate"))

/-- The `content` object of a notification request; `none` is a missing or falsy field. -/
structure Content where
  titles : Option String
  messages : Option String
  deriving DecidableEq, Repr

/-- Body of `POST /notify`; the JSON text of `userUids`, `titles` and `messages` is kept
as it is, `none` is a missing or falsy field (for `checklistId`: `null` or missing). -/
structure NotifyRequest where
  accessToken : Option String
  checklistId : Option String
  userUids : Option String
  content : Option Content
  deriving DecidableEq, Repr

/-- The handler of `POST /notify` (index.js lines 233 to 292). -/
def postNotify (req : NotifyRequest) (w : World) : Outcome :=
  match req.accessToken, req.userUids, req.content with
  | some accessToken, some userUids, some content =>
    if accessToken = "" then
      ⟨⟨400, .error "Missing required fields: accessToken, userUids or content."⟩, []⟩
    else
      match content.titles, content.messages with
      | some _, some _ =>
        match w.getUser with
        | .throws => ⟨⟨500, .error "Failed"⟩, [.getUser accessToken]⟩
        | .failed => ⟨⟨401, .error "Invalid token"⟩, [.getUser accessToken]⟩
        | .user user =>
          let metadata : Bag := user.app_metadata.getD []
          let now := w.now
          if noPermissions metadata now then
            ⟨⟨403, .error "User has no permissions."⟩, [.getUser accessToken]⟩
          else
            let calls := [Effect.getUser accessToken, Effect.pushPost userUids req.checklistId]
            match w.push with
            | .throws => ⟨⟨500, .error "Failed"⟩, calls⟩
            | .json body => ⟨⟨200, .provider body⟩, calls⟩
      | _, _ => ⟨⟨400, .error "Missing content required fields: titles or messages."⟩, []⟩
  | _, _, _ =>
    ⟨⟨400, .error "Missing required fields: accessToken, userUids or content."⟩, []⟩

/-- The property `length` of a string: its number of UTF-16 code units. -/
def jsLength (s : String) : Nat :=
  (s.data.map fun c => if c.val < 0x10000 then 1 else 2).sum

/-- Index just past the first occurrence of `pat` in a text, if there is one. -/
def findAfter (pat : List Char) : List Char → Option Nat
  | [] => if pat = [] then some 0 else none
  | c :: cs =>
    if pat.isPrefixOf (c :: cs) then some pat.length
    else (findAfter pat cs).map fun n => n + 1

/-- The replacement `.replace(/<think>[\s\S]*?<\/think>/g, "")`; `skip` counts the
characters of a match still to be dropped. -/
def stripThink (skip : Nat) : List Char → List Char
  | [] => []
  | c :: cs =>
    match skip with
    | n + 1 => stripThink n cs
    | 0 =>
      if "<think>".data.isPrefixOf (c :: cs) then
        match findAfter "</think>".data ((c :: cs).drop 7) with
        | some n => stripThink (6 + n) cs
        | none => c :: stripThink 0 cs
      else c :: stripThink 0 cs

/-- The replacement `.replace(/pat/g, "")` for a literal pattern. -/
def removeAll (pat : List Char) (skip : Nat) : List Char → List Char
  | [] => []
  | c :: cs =>
    match skip with
    | n + 1 => removeAll pat n cs
    | 0 =>
      if pat.isPrefixOf (c :: cs) then removeAll pat (pat.length - 1) cs
      else c :: removeAll pat 0 cs

/-- Lines 368 and 369 (and 435, 436): drop think blocks and code-fence markers. -/
def cleanSuggestions (rawSuggestions : String) : String :=
  let suggestions := jsTrim ⟨stripThink 0 rawSuggestions.data⟩
  jsTrim ⟨removeAll "```".data 0 (removeAll "```json".data 0 suggestions.data)⟩

/-- The operand `err.message || fallback` of a catch block. -/
def messageOr (message fallback : String) : String :=
  if message = "" then fallback else message

/-- The `items` field when it is truthy: an array of strings (an empty string stands for
any falsy element) or some other value. -/
inductive Items where
  | notArray
  | array (xs : List String)
  deriving DecidableEq, Repr

/-- Body of `POST /ai/suggestions`. -/
structure SuggestionsRequest where
  idToken : Option String
  title : Option String
  items : Option Items
  deriving DecidableEq, Repr

/-- Lines 313 to 381 and 391 to 447: the `try` block shared, up to the prompt, by the two
AI handlers, and its `catch`. -/
def aiGenerate (g : Globals) (idToken : String) (userPrompt : String) (w : World) :
    Outcome :=
  if !g.admin then ⟨⟨500, .error (messageOr "admin is not defined"
      "Failed to generate AI suggestions")⟩, []⟩
  else
    match w.verifyIdToken with
    | .throws message =>
      ⟨⟨500, .error (messageOr message "Failed to generate AI suggestions")⟩,
        [.verifyIdToken idToken]⟩
    | .decoded uid decoded =>
      let now := w.now
      if noPermissions decoded now then
        ⟨⟨403, .error "User has no permissions for AI suggestions"⟩, [.verifyIdToken idToken]⟩
      else
        let calls := [Effect.verifyIdToken idToken, Effect.chatCompletion uid userPrompt]
        match w.completion with
        | .throws message =>
          ⟨⟨500, .error (messageOr message "Failed to generate AI suggestions")⟩, calls⟩
        | .content none => ⟨⟨500, .error "Failed to generate AI suggestion"⟩, calls⟩
        | .content (some rawSuggestions) =>
          if rawSuggestions = "" then ⟨⟨500, .error "Failed to generate AI suggestion"⟩, calls⟩
          else ⟨⟨200, .suggestions (cleanSuggestions rawSuggestions)⟩, calls⟩

/-- The user prompt built at lines 325 to 340. -/
def suggestionsPrompt (title : String) (validItems : List String) : String :=
  let hasItems := decide (validItems.length > 0)
  let hasEnoughItems := decide (validItems.length ≥ 2)
  let maxSuggestions := if hasEnoughItems then "10" else "5"
  let userPrompt := "You are given a checklist with a title"
  if hasItems then
    userPrompt ++ " and some existing items. Suggest up to " ++ maxSuggestions ++
      " additional useful and practical items that logically complement the existing list, avoiding duplicates. Each item should be 1 short sentence. Title: " ++
      title ++ ".\nExisting items: " ++ ", ".intercalate validItems ++ "."
  else
    userPrompt ++ ". Suggest up to " ++ maxSuggestions ++
      " of the most essential and common items that are typically included for this type of checklist. Each item should be 1 short sentence. Title: " ++
      title ++ "."

/-- The handler of `POST /ai/suggestions` (index.js lines 294 to 382). -/
def postAiSuggestions (g : Globals) (req : SuggestionsRequest) (w : World) : Outcome :=
  match req.idToken, req.title, req.items with
  | some idToken, some title, some items =>
    if idToken = "" || title = "" then
      ⟨⟨400, .error "Missing required fields: idToken, title or items."⟩, []⟩
    else if jsLength (jsTrim title) < 3 then
      ⟨⟨400, .error "Title must be at least 3 characters long."⟩, []⟩
    else
      let validItems :=
        match items with
        | .array xs => xs.filter fun item => decide (item ≠ "") && decide (jsLength (jsTrim item) ≥ 2)
        | .notArray => []
      aiGenerate g idToken (suggestionsPrompt title validItems) w
  | _, _, _ => ⟨⟨400, .error "Missing required fields: idToken, title or items."⟩, []⟩

/-- Body of `POST /ai/parse`. -/
structure ParseRequest where
  idToken : Option String
  prompt : Option String
  deriving DecidableEq, Repr

/-- The handler of `POST /ai/parse` (index.js lines 384 to 448). -/
def postAiParse (g : Globals) (req : ParseRequest) (w : World) : Outcome :=
  match req.idToken, req.prompt with
  | some idToken, some prompt =>
    if idToken = "" || prompt = "" then
      ⟨⟨400, .error "Missing required fields: idToken or prompt."⟩, []⟩
    else
      aiGenerate g idToken
        ("The user provides a single piece of transcribed text (from voice input) that includes both a checklist title and list items. Now process this input: " ++ prompt) w
  | _, _ => ⟨⟨400, .error "Missing required fields: idToken or prompt."⟩, []⟩

/-! ## The record store and the reference predicates -/

/-- The attribute bag the identity provider holds after a request, given the bag it held
before: a call to `updateUserById` that succeeds stores the bag it was passed (the handlers
always pass the whole prior bag with their changes, so a merge and a replacement give the
same result); otherwise the bag is unchanged. -/
def storedAfter (stored : Option Bag) (w : World) (o : Outcome) : Option Bag :=
  match w.update, (writes o.effects).getLast? with
  | .ok, some m => some m
  | _, _ => stored

/-- Two bags that read alike: under every key they hold the same value, where a missing
key and a key holding `null` count as the same (a store may drop a key that is written as
`null`; no handler can tell the two apart). -/
def readsAlike (a b : Bag) : Prop :=
  ∀ key, nullish (getProp a key) .null = nullish (getProp b key) .null

/-- The comparison `now <= v` for a number `now`; any comparison with `NaN` is false. -/
def numLe (now : Int) (v : JsVal) : Bool :=
  match toNumber v with
  | some n => decide (now ≤ n)
  | none => false

/-- The access gate as the specification words it:
`record.hasPremium == true OR (record.trialExpireDate != null AND
now <= record.trialExpireDate)`. -/
def specIsEntitled (record : Bag) (now : Int) : Bool :=
  decide (getProp record "hasPremium" = .bool true) ||
    (notNull (getProp record "trialExpireDate") && numLe now (getProp record "trialExpireDate"))

/-- A value a boolean field of the data model may hold: a boolean, or nothing. -/
def isBoolOrUnset : JsVal → Bool
  | .num _ => false
  | _ => true

/-- A value an integer field of the data model may hold: an integer, or nothing. -/
def isIntOrUnset : JsVal → Bool
  | .bool _ => false
  | _ => true

/-- A bag whose entitlement keys hold what the data model allows: `hasPremium` a boolean,
`trialExpireDate` and `lastSubscriptionCheck` an integer; each may be missing or `null`. -/
def typedRecord (m : Bag) : Bool :=
  isBoolOrUnset (getProp m "hasPremium") && isIntOrUnset (getProp m "trialExpireDate") &&
    isIntOrUnset (getProp m "lastSubscriptionCheck")

/-- A world in which every collaborator fails; examples override the fields they use. -/
def quietWorld : World :=
  ⟨.failed, 0, none, .throws, 0, .error, .throws "", .content none, .throws⟩

/-- A record with no premium whose trial ends at the epoch itself. -/
def epochTrialRecord : Bag := [("hasPremium", .bool false), ("trialExpireDate", .num 0)]

/-- A well-formed notification request. -/
def sampleNotify : NotifyRequest :=
  ⟨some "tok", none, some "[\"u2\"]", some ⟨some "titles", some "messages"⟩⟩

/-- A user with the given attribute bag, created at time 1000. -/
def sampleUser (m : Option Bag) : User := ⟨"u1", some "Ann@Example.com", 1000, m⟩

/-- A first trial activation: the user has no attribute bag yet and the write succeeds. -/
def trialWorld : World :=
  { quietWorld with getUser := .user (sampleUser none), update := .ok }

/-- The bag the first trial activation of `trialWorld` writes. -/
def trialledRecord : Bag :=
  [("trialExpireDate", .num 604801000), ("hasPremium", .bool false)]

/-- A premium record whose last check is stamped 0. -/
def epochCheckRecord : Bag := [("hasPremium", .bool true), ("lastSubscriptionCheck", .num 0)]

/-- A refresh one second after the epoch for the user with `epochCheckRecord`; the
authority answers with an empty list of access levels. -/
def epochCheckWorld : World :=
  { quietWorld with
    getUser := .user (sampleUser (some epochCheckRecord)), now := 1000,
    adapty := .ok ⟨some []⟩, checkNow := 1001, update := .ok }

/-- A premium record checked at time 5000. -/
def checkedRecord : Bag := [("hasPremium", .bool true), ("lastSubscriptionCheck", .num 5000)]

/-- A refresh at time 6000 for the user with `checkedRecord`. -/
def soonWorld : World :=
  { quietWorld with
    getUser := .user (sampleUser (some checkedRecord)), now := 6000,
    adapty := .ok ⟨some []⟩, update := .ok }

/-- A refresh at time 5000 for a premium user never checked before; the authority reports
one open-ended access level. -/
def firstCheckWorld : World :=
  { quietWorld with
    getUser := .user (sampleUser (some [("hasPremium", .bool true)])), now := 5000,
    adapty := .ok ⟨some [⟨.missing, .missing⟩]⟩, checkNow := 5001, update := .ok }

/-- The bag the refresh of `firstCheckWorld` writes. -/
def firstCheckedRecord : Bag :=
  [("hasPremium", .bool true), ("trialExpireDate", .null), ("lastSubscriptionCheck", .num 5000)]

/-- A second refresh, at time 6000, by the user of `firstCheckWorld`. -/
def secondCheckWorld : World :=
  { quietWorld with
    getUser := .user (sampleUser (some firstCheckedRecord)), now := 6000,
    adapty := .ok ⟨some []⟩, update := .ok }

/-- A refresh that is due, for a premium user whose email is on no allow-list, during
which the request to the subscription authority fails at the transport level. -/
def outageWorld : World :=
  { quietWorld with
    getUser := .user (sampleUser (some [("hasPremium", .bool true)])), now := 5000,
    adapty := .throws, update := .ok }

/-- A first grant for a user with no attribute bag during which the subscription authority
answers with an error status. -/
def refusedWorld : World :=
  { quietWorld with
    getUser := .user (sampleUser none), adapty := .notOk (some "unavailable"),
    update := .ok }

/-- A first grant for a user with no attribute bag whose email, up to letter case, is the
one entry of `SKIP_ADAPTY_EMAILS`. -/
def allowListedWorld : World :=
  { quietWorld with
    getUser := .user (sampleUser none), skipAdaptyEmails := some " ann@example.com ",
    adapty := .ok ⟨some []⟩, update := .ok }

/-- A bag with a trial date, a check time and a key the program does not know. -/
def mixedRecord : Bag :=
  [("plan", .num 3), ("trialExpireDate", .num 777), ("lastSubscriptionCheck", .num 42)]

/-- A bag with premium, a check time and a key the program does not know, but no trial. -/
def premiumRecord : Bag :=
  [("plan", .num 3), ("hasPremium", .bool true), ("lastSubscriptionCheck", .num 42)]

/-- A request by a user whose bag is `m`, at a time when every check is due, with an
authority that reports one open-ended access level and a store that accepts writes. -/
def mergeWorld (m : Bag) : World :=
  { quietWorld with
    getUser := .user (sampleUser (some m)), now := 900000000,
    adapty := .ok ⟨some [⟨.missing, .missing⟩]⟩, checkNow := 900000001, update := .ok }

/-- An AI request by a caller whose token decodes to claims without premium and without a
trial; the text generation would succeed. -/
def unentitledWorld : World :=
  { quietWorld with
    verifyIdToken := .decoded "u1" [("hasPremium", .bool false)], now := 5000,
    completion := .content (some "[\"eggs\"]") }

/-- A well-formed suggestions request. -/
def sampleSuggestions : SuggestionsRequest :=
  ⟨some "tok", some "Groceries", some (.array ["milk", "bread"])⟩

/-- A well-formed parse request. -/
def sampleParse : ParseRequest := ⟨some "tok", some "groceries: milk and bread"⟩

/-- A later request by the same user, whose bag is now `trialledRecord`. -/
def laterWorld : World :=
  { quietWorld with getUser := .user (sampleUser (some trialledRecord)), update := .ok }

/-! ## Properties of the attribute bag -/

theorem lookupProp_setProp_self (m : Bag) (k : String) (v : JsVal) :
    lookupProp (setProp m k v) k = some v := by
  induction m with
  | nil => simp [setProp, lookupProp]
  | cons p rest ih =>
    obtain ⟨k0, x⟩ := p
    by_cases h : k0 = k
    · simp [setProp, lookupProp, h]
    · simp [setProp, lookupProp, h, ih]

theorem lookupProp_setProp_other (m : Bag) (k key : String) (v : JsVal) (h : key ≠ k) :
    lookupProp (setProp m k v) key = lookupProp m key := by
  induction m with
  | nil =>
    have h2 : ¬ k = key := fun e => h e.symm
    simp [setProp, lookupProp, h2]
  | cons p rest ih =>
    obtain ⟨k0, x⟩ := p
    by_cases h0 : k0 = k
    · subst h0
      have h2 : ¬ k0 = key := fun e => h e.symm
      simp [setProp, lookupProp, h2]
    · by_cases h1 : k0 = key
      · subst h1
        simp [setProp, lookupProp, h]
      · simp [setProp, lookupProp, h0, h1, ih]

theorem getProp_setProp_self (m : Bag) (k : String) (v : JsVal) :
    getProp (setProp m k v) k = v := by
  simp [getProp, lookupProp_setProp_self]

theorem getProp_setProp_other (m : Bag) (k key : String) (v : JsVal) (h : key ≠ k) :
    getProp (setProp m k v) key = getProp m key := by
  simp [getProp, lookupProp_setProp_other m k key v h]

/-! ## The access gate -/

theorem noPermissions_iff_of_typed (m : Bag) (now : Int) (ht : typedRecord m = true)
    (h0 : getProp m "trialExpireDate" ≠ .num 0 ∨ 0 < now) :
    noPermissions m now = false ↔ specIsEntitled m now = true := by
  unfold typedRecord at ht
  unfold noPermissions specIsEntitled
  generalize getProp m "hasPremium" = hp at *
  generalize getProp m "trialExpireDate" = ted at *
  rcases hp with _ | _ | b | n <;> rcases ted with _ | _ | b2 | t <;>
    simp_all [truthy, notNull, numGt, numLe, toNumber, isBoolOrUnset, isIntOrUnset]
  all_goals try cases b
  all_goals try simp
  all_goals
    intro hle h
    subst h
    rcases h0 with h0 | h0
    · exact h0 rfl
    · omega

theorem postNotify_forbidden_iff (req : NotifyRequest) (w : World) (tok uids t ms : String)
    (c : Content) (u : User) (h1 : req.accessToken = some tok) (h2 : tok ≠ "")
    (h3 : req.userUids = some uids) (h4 : req.content = some c) (h5 : c.titles = some t)
    (h6 : c.messages = some ms) (h7 : w.getUser = .user u) :
    (postNotify req w).response.status = 403 ↔
      noPermissions (u.app_metadata.getD []) w.now = true := by
  unfold postNotify
  simp only [h1, h3, h4, h5, h6, h7, h2, if_false]
  by_cases hp : noPermissions (u.app_metadata.getD []) w.now = true
  · simp [hp]
  · simp only [hp, if_false]
    cases w.push <;> simp

/-- C1 (amended): on every record whose fields have the types of the data model and at
every time `now`, provided `trialExpireDate` is not 0 or `now` is after the epoch, the gate
lets the request through exactly when `hasPremium == true` or `trialExpireDate != null`
and `now <= trialExpireDate`; `POST /notify` answers 403 exactly when the gate denies;
with `hasPremium` false the gate permits at `now = trialExpireDate` when that is not 0 and
denies one millisecond later; with `hasPremium` true it permits at every time and in
every trial state. -/
theorem access_gate_matches_reference :
    (∀ (m : Bag) (now : Int), typedRecord m = true →
      (getProp m "trialExpireDate" ≠ .num 0 ∨ 0 < now) →
      (noPermissions m now = false ↔ specIsEntitled m now = true)) ∧
    (∀ (req : NotifyRequest) (w : World) (tok uids t ms : String) (c : Content) (u : User),
      req.accessToken = some tok → tok ≠ "" → req.userUids = some uids →
      req.content = some c → c.titles = some t → c.messages = some ms →
      w.getUser = .user u →
      ((postNotify req w).response.status = 403 ↔
        noPermissions (u.app_metadata.getD []) w.now = true)) ∧
    (∀ (m : Bag) (t : Int), getProp m "hasPremium" = .bool false →
      getProp m "trialExpireDate" = .num t →
      (t ≠ 0 → noPermissions m t = false) ∧ noPermissions m (t + 1) = true) ∧
    (∀ (m : Bag) (now : Int), getProp m "hasPremium" = .bool true →
      noPermissions m now = false) := by
  refine ⟨noPermissions_iff_of_typed, postNotify_forbidden_iff, ?_, ?_⟩
  · intro m t hp ht
    constructor
    · intro h0
      simp [noPermissions, hp, ht, truthy, numGt, toNumber, h0]
    · simp [noPermissions, hp, ht, truthy, numGt, toNumber]
  · intro m now hp
    simp [noPermissions, hp, truthy]

/-- The amended gate property at a record whose trial ends at time 5000. -/
theorem access_gate_matches_reference_witness :
    (noPermissions [("hasPremium", .bool false), ("trialExpireDate", .num 5000)] 5000 = false ↔
      specIsEntitled [("hasPremium", .bool false), ("trialExpireDate", .num 5000)] 5000 = true) ∧
    ((postNotify sampleNotify
        { quietWorld with getUser := .user (sampleUser (some epochTrialRecord)) }).response.status
        = 403 ↔ noPermissions ((sampleUser (some epochTrialRecord)).app_metadata.getD []) 0 = true) ∧
    (noPermissions [("hasPremium", .bool false), ("trialExpireDate", .num 5000)] 5000 = false ∧
      noPermissions [("hasPremium", .bool false), ("trialExpireDate", .num 5000)] (5000 + 1)
        = true) ∧
    noPermissions [("hasPremium", .bool true)] 7 = false :=
  ⟨access_gate_matches_reference.1 _ 5000 (by decide) (Or.inl (by decide)),
   access_gate_matches_reference.2.1 sampleNotify _ "tok" "[\"u2\"]" "titles" "messages"
     ⟨some "titles", some "messages"⟩ (sampleUser (some epochTrialRecord))
     rfl (by decide) rfl rfl rfl rfl rfl,
   ⟨(access_gate_matches_reference.2.2.1 _ 5000 (by decide) (by decide)).1 (by decide),
    (access_gate_matches_reference.2.2.1 _ 5000 (by decide) (by decide)).2⟩,
   access_gate_matches_reference.2.2.2 _ 7 (by decide)⟩

/-- C1 fails as stated: on the well-typed record with `hasPremium` false and
`trialExpireDate` 0, at `now = 0` (which is `trialExpireDate`), the reference predicate
holds while the gate denies and `POST /notify` answers 403. -/
theorem access_gate_denies_at_zero_expiry :
    typedRecord epochTrialRecord = true ∧
    specIsEntitled epochTrialRecord 0 = true ∧
    noPermissions epochTrialRecord 0 = true ∧
    postNotify sampleNotify
        { quietWorld with getUser := .user (sampleUser (some epochTrialRecord)), now := 0 } =
      ⟨⟨403, .error "User has no permissions."⟩, [.getUser "tok"]⟩ := by
  decide

/-! ## Trial activation -/

/-- What `POST /trial` does for an authenticated user whose trial is not set: one write of
the merged bag, and an answer that depends only on the result of that write. -/
theorem postTrial_of_unset (req : TokenRequest) (w : World) (tok : String) (u : User)
    (htok : req.accessToken = some tok) (hne : tok ≠ "") (hu : w.getUser = .user u)
    (hnull : notNull (getProp (u.app_metadata.getD []) "trialExpireDate") = false) :
    postTrial req w =
      ⟨match w.update with
        | .throws => ⟨500, .error "Failed to set trial"⟩
        | .error => ⟨500, .error "Failed to update trial data"⟩
        | .ok => ⟨200, .trial (u.created_at + 604800000)⟩,
       [.getUser tok, .updateUserById u.id
          (setProp (setProp (u.app_metadata.getD []) "trialExpireDate"
              (.num (u.created_at + 604800000)))
            "hasPremium" (nullish (getProp (u.app_metadata.getD []) "hasPremium")
              (.bool false)))]⟩ := by
  unfold postTrial
  simp only [htok, hu, hne, hnull, if_false]
  cases w.update <;> simp

/-- What `POST /trial` does for an authenticated user whose trial is set. -/
theorem postTrial_of_set (req : TokenRequest) (w : World) (tok : String) (u : User)
    (htok : req.accessToken = some tok) (hne : tok ≠ "") (hu : w.getUser = .user u)
    (hset : notNull (getProp (u.app_metadata.getD []) "trialExpireDate") = true) :
    postTrial req w = ⟨⟨400, .error "Trial already set"⟩, [.getUser tok]⟩ := by
  unfold postTrial
  simp [htok, hu, hne, hset]

/-- C2: for every authenticated user whose `trialExpireDate` is null or missing and every
`created_at`, `POST /trial` succeeds whenever the write succeeds, and a successful call
answers `trialExpireDate = created_at + 604800000`, makes exactly one write, which the
store keeps, with that same `trialExpireDate`, and with `hasPremium` equal to the prior
boolean when there was one and `false` when there was none. -/
theorem trial_expiry_is_created_plus_seven_days (req : TokenRequest) (w : World)
    (tok : String) (u : User)
    (htok : req.accessToken = some tok) (hne : tok ≠ "") (hu : w.getUser = .user u)
    (hnull : notNull (getProp (u.app_metadata.getD []) "trialExpireDate") = false) :
    (w.update = .ok → (postTrial req w).response.status = 200) ∧
    ((postTrial req w).response.status = 200 →
      (postTrial req w).response.body = .trial (u.created_at + 604800000) ∧
      ∃ b, writes (postTrial req w).effects = [b] ∧
        storedAfter u.app_metadata w (postTrial req w) = some b ∧
        getProp b "trialExpireDate" = .num (u.created_at + 604800000) ∧
        (∀ p, getProp (u.app_metadata.getD []) "hasPremium" = .bool p →
          getProp b "hasPremium" = .bool p) ∧
        (notNull (getProp (u.app_metadata.getD []) "hasPremium") = false →
          getProp b "hasPremium" = .bool false)) := by
  rw [postTrial_of_unset req w tok u htok hne hu hnull]
  constructor
  · intro hok
    simp [hok]
  · intro hs
    have hok : w.update = .ok := by
      cases hup : w.update <;> simp [hup] at hs
      rfl
    refine ⟨by simp [hok], _, rfl, ?_, ?_, ?_, ?_⟩
    · simp [storedAfter, hok, writes]
    · rw [getProp_setProp_other _ _ _ _ (by decide), getProp_setProp_self]
    · intro p hp
      rw [getProp_setProp_self, hp]
      rfl
    · intro hp
      rw [getProp_setProp_self]
      generalize getProp (u.app_metadata.getD []) "hasPremium" = v at hp
      cases v <;> simp_all [nullish, notNull]

/-- C2 at the user created at time 1000 with the bag `hasPremium: true`. -/
theorem trial_expiry_is_created_plus_seven_days_witness :
    (UpdateResult.ok = .ok →
      (postTrial ⟨some "tok"⟩ { quietWorld with
        getUser := .user (sampleUser (some [("hasPremium", .bool true)])),
        update := .ok }).response.status = 200) ∧
    ((postTrial ⟨some "tok"⟩ { quietWorld with
        getUser := .user (sampleUser (some [("hasPremium", .bool true)])),
        update := .ok }).response.status = 200 →
      (postTrial ⟨some "tok"⟩ { quietWorld with
        getUser := .user (sampleUser (some [("hasPremium", .bool true)])),
        update := .ok }).response.body = .trial (1000 + 604800000) ∧
      ∃ b, writes (postTrial ⟨some "tok"⟩ { quietWorld with
          getUser := .user (sampleUser (some [("hasPremium", .bool true)])),
          update := .ok }).effects = [b] ∧
        storedAfter (some [("hasPremium", .bool true)]) { quietWorld with
          getUser := .user (sampleUser (some [("hasPremium", .bool true)])),
          update := .ok } (postTrial ⟨some "tok"⟩ { quietWorld with
          getUser := .user (sampleUser (some [("hasPremium", .bool true)])),
          update := .ok }) = some b ∧
        getProp b "trialExpireDate" = .num (1000 + 604800000) ∧
        (∀ p, getProp [("hasPremium", .bool true)] "hasPremium" = .bool p →
          getProp b "hasPremium" = .bool p) ∧
        (notNull (getProp [("hasPremium", .bool true)] "hasPremium") = false →
          getProp b "hasPremium" = .bool false)) :=
  trial_expiry_is_created_plus_seven_days ⟨some "tok"⟩
    { quietWorld with
      getUser := .user (sampleUser (some [("hasPremium", .bool true)])), update := .ok }
    "tok" (sampleUser (some [("hasPremium", .bool true)])) rfl (by decide) rfl (by decide)

/-- A value that reads as a number, up to `null`, is that number. -/
theorem eq_num_of_nullish (v : JsVal) (t : Int) (h : nullish v .null = .num t) :
    v = .num t := by
  cases v <;> simp_all [nullish]

/-- A value that reads as a boolean, up to `null`, is that boolean. -/
theorem eq_bool_of_nullish (v : JsVal) (p : Bool) (h : nullish v .null = .bool p) :
    v = .bool p := by
  cases v <;> simp_all [nullish]

/-- C3: once `POST /trial` has succeeded for a user, a later `POST /trial` by an
authenticated caller whose record reads like the one that call left answers 400
`Trial already set`, makes no write, leaves the stored record as it is, and that record
still holds the `trialExpireDate` the first call set and returned. -/
theorem trial_is_set_only_once (req1 req2 : TokenRequest) (w1 w2 : World)
    (tok1 tok2 : String) (u1 u2 : User)
    (h1 : req1.accessToken = some tok1) (hne1 : tok1 ≠ "") (hu1 : w1.getUser = .user u1)
    (hok : (postTrial req1 w1).response.status = 200)
    (h2 : req2.accessToken = some tok2) (hne2 : tok2 ≠ "") (hu2 : w2.getUser = .user u2)
    (hrec : readsAlike (u2.app_metadata.getD [])
      ((storedAfter u1.app_metadata w1 (postTrial req1 w1)).getD [])) :
    (postTrial req1 w1).response.body = .trial (u1.created_at + 604800000) ∧
    (postTrial req2 w2).response = ⟨400, .error "Trial already set"⟩ ∧
    writes (postTrial req2 w2).effects = [] ∧
    storedAfter u2.app_metadata w2 (postTrial req2 w2) = u2.app_metadata ∧
    getProp (u2.app_metadata.getD []) "trialExpireDate" =
      .num (u1.created_at + 604800000) := by
  have hnull : notNull (getProp (u1.app_metadata.getD []) "trialExpireDate") = false := by
    by_contra hc
    have hset : notNull (getProp (u1.app_metadata.getD []) "trialExpireDate") = true := by
      simpa using hc
    rw [postTrial_of_set req1 w1 tok1 u1 h1 hne1 hu1 hset] at hok
    simp at hok
  rw [postTrial_of_unset req1 w1 tok1 u1 h1 hne1 hu1 hnull] at hok hrec ⊢
  have hup : w1.update = .ok := by
    cases hup : w1.update <;> simp [hup] at hok
    rfl
  simp only [hup, storedAfter, writes, List.getLast?_singleton, Option.getD_some] at hrec
  have hted : getProp (u2.app_metadata.getD []) "trialExpireDate" =
      .num (u1.created_at + 604800000) := by
    have hk := hrec "trialExpireDate"
    rw [getProp_setProp_other _ _ _ _ (by decide), getProp_setProp_self] at hk
    exact eq_num_of_nullish _ _ hk
  have hset : notNull (getProp (u2.app_metadata.getD []) "trialExpireDate") = true := by
    rw [hted]
    rfl
  rw [postTrial_of_set req2 w2 tok2 u2 h2 hne2 hu2 hset]
  refine ⟨by simp [hup], rfl, by simp [writes], by simp [storedAfter, writes], hted⟩

/-- C3 at a user created at time 1000: the first call sets 604801000, the second is
refused. -/
theorem trial_is_set_only_once_witness :
    (postTrial ⟨some "tok"⟩ trialWorld).response.body = .trial (1000 + 604800000) ∧
    (postTrial ⟨some "tok2"⟩ laterWorld).response = ⟨400, .error "Trial already set"⟩ ∧
    writes (postTrial ⟨some "tok2"⟩ laterWorld).effects = [] ∧
    storedAfter (some trialledRecord) laterWorld (postTrial ⟨some "tok2"⟩ laterWorld) =
      some trialledRecord ∧
    getProp trialledRecord "trialExpireDate" = .num (1000 + 604800000) :=
  trial_is_set_only_once ⟨some "tok"⟩ ⟨some "tok2"⟩ trialWorld laterWorld "tok" "tok2"
    (sampleUser none) (sampleUser (some trialledRecord))
    rfl (by decide) rfl (by decide) rfl (by decide) rfl (fun _ => rfl)

/-! ## The subscription check -/

/-- C4: `hasActiveSubscription` returns true exactly when the response has a list of
access levels and at least one of them satisfies (`starts_at` is absent or
`now >= starts_at`) and (`expires_at` is absent or `now <= expires_at`); it returns false
for an empty list and for a response with no list. -/
theorem hasActiveSubscription_iff_some_window_open :
    (∀ (d : AdaptyData) (now : Int), hasActiveSubscription d now = true ↔
      ∃ levels, d.access_levels = some levels ∧ ∃ level ∈ levels,
        (level.starts_at = .missing ∨ ∃ t, level.starts_at = .time t ∧ now ≥ t) ∧
        (level.expires_at = .missing ∨ ∃ t, level.expires_at = .time t ∧ now ≤ t)) ∧
    (∀ now : Int, hasActiveSubscription ⟨some []⟩ now = false) ∧
    (∀ now : Int, hasActiveSubscription ⟨none⟩ now = false) := by
  refine ⟨?_, fun _ => rfl, fun _ => rfl⟩
  intro d now
  obtain ⟨levels⟩ := d
  cases levels with
  | none => simp [hasActiveSubscription]
  | some levels =>
    simp only [hasActiveSubscription, List.any_eq_true, Option.some.injEq, exists_eq_left']
    constructor
    · rintro ⟨level, hmem, h⟩
      refine ⟨level, hmem, ?_⟩
      obtain ⟨s, e⟩ := level
      cases s <;> cases e <;> simp_all
    · rintro ⟨level, hmem, h⟩
      refine ⟨level, hmem, ?_⟩
      obtain ⟨s, e⟩ := level
      cases s <;> cases e <;> simp_all

/-! ## Premium refresh -/

/-- A refresh for a premium user checked at a nonzero time less than 24 hours ago. -/
theorem putPremium_of_recent (req : TokenRequest) (w : World) (tok : String) (u : User)
    (t : Int) (htok : req.accessToken = some tok) (hne : tok ≠ "")
    (hu : w.getUser = .user u)
    (hp : truthy (getProp (u.app_metadata.getD []) "hasPremium") = true)
    (hl : getProp (u.app_metadata.getD []) "lastSubscriptionCheck" = .num t)
    (h0 : t ≠ 0) (hlt : w.now - t < 86400000) :
    putPremium req w = ⟨⟨200, .skipped "Checked less than 24h ago"⟩, [.getUser tok]⟩ := by
  have hl2 : truthy (JsVal.num t) = true := by simp [truthy, h0]
  unfold putPremium
  simp [htok, hu, hne, hp, hl, hl2, diffLt, toNumber, hlt]

/-- A refresh for a user without premium. -/
theorem putPremium_of_no_premium (req : TokenRequest) (w : World) (tok : String) (u : User)
    (htok : req.accessToken = some tok) (hne : tok ≠ "") (hu : w.getUser = .user u)
    (hp : truthy (getProp (u.app_metadata.getD []) "hasPremium") = false) :
    putPremium req w = ⟨⟨200, .skipped "No hasPremium metadata"⟩, [.getUser tok]⟩ := by
  unfold putPremium
  simp [htok, hu, hne, hp]

/-- A refresh that answers `updated` wrote `updatedMetadata` once, with success, and
called the authority unless the email is on the allow-list. -/
theorem putPremium_of_updated (req : TokenRequest) (w : World) (tok : String) (u : User)
    (hasPremium : Bool) (htok : req.accessToken = some tok) (hne : tok ≠ "")
    (hu : w.getUser = .user u)
    (hr : (putPremium req w).response = ⟨200, .updated hasPremium⟩) :
    w.update = .ok ∧
    writes (putPremium req w).effects =
      [updatedMetadata (u.app_metadata.getD []) w.now hasPremium] ∧
    authorityCalls (putPremium req w).effects =
      if includesEmail (parseSkipEmails w.skipAdaptyEmails) u.email then 0 else 1 := by
  unfold putPremium at hr ⊢
  simp only [htok, hu] at hr ⊢
  rw [if_neg hne] at hr ⊢
  split_ifs at hr ⊢
  all_goals try (exact absurd hr (by simp))
  · unfold putPremiumFinish at hr ⊢
    cases hup : w.update <;> simp [hup] at hr
    subst hr
    simp [writes, authorityCalls]
  · cases had : w.adapty <;> simp only [had] at hr ⊢
    all_goals try (exact absurd hr (by simp))
    all_goals
      unfold putPremiumFinish at hr ⊢
      cases hup : w.update <;> simp [hup] at hr
      subst hr
      simp [writes, authorityCalls]

/-- C5 (amended): for every user with `hasPremium` true whose `lastSubscriptionCheck` is a
nonzero time less than 24 hours before `now`, `PUT /premium` answers `skipped`, calls
only the identity provider and writes nothing; hence when a first refresh by a user whose
email is not on the allow-list answered `updated`, at a nonzero time or with `hasPremium`
false, it called the authority once, and a second refresh less than 24 hours later on a
record that reads like the one it left answers `skipped` without calling the authority
or writing. -/
theorem refresh_is_throttled :
    (∀ (req : TokenRequest) (w : World) (tok : String) (u : User) (t : Int),
      req.accessToken = some tok → tok ≠ "" → w.getUser = .user u →
      getProp (u.app_metadata.getD []) "hasPremium" = .bool true →
      getProp (u.app_metadata.getD []) "lastSubscriptionCheck" = .num t → t ≠ 0 →
      w.now - t < 86400000 →
      putPremium req w = ⟨⟨200, .skipped "Checked less than 24h ago"⟩, [.getUser tok]⟩) ∧
    (∀ (req1 req2 : TokenRequest) (w1 w2 : World) (tok1 tok2 : String) (u1 u2 : User)
      (hasPremium : Bool),
      req1.accessToken = some tok1 → tok1 ≠ "" → w1.getUser = .user u1 →
      includesEmail (parseSkipEmails w1.skipAdaptyEmails) u1.email = false →
      (putPremium req1 w1).response = ⟨200, .updated hasPremium⟩ →
      (w1.now ≠ 0 ∨ hasPremium = false) →
      req2.accessToken = some tok2 → tok2 ≠ "" → w2.getUser = .user u2 →
      readsAlike (u2.app_metadata.getD [])
        ((storedAfter u1.app_metadata w1 (putPremium req1 w1)).getD []) →
      w2.now - w1.now < 86400000 →
      authorityCalls (putPremium req1 w1).effects = 1 ∧
      authorityCalls (putPremium req2 w2).effects = 0 ∧
      writes (putPremium req2 w2).effects = [] ∧
      ∃ reason, putPremium req2 w2 = ⟨⟨200, .skipped reason⟩, [.getUser tok2]⟩) := by
  constructor
  · intro req w tok u t htok hne hu hp hl h0 hlt
    exact putPremium_of_recent req w tok u t htok hne hu (by rw [hp]; rfl) hl h0 hlt
  · intro req1 req2 w1 w2 tok1 tok2 u1 u2 hasPremium h1 hne1 hu1 hin hr hnow h2 hne2 hu2
      hrec hlt
    obtain ⟨hup, hw, hc⟩ := putPremium_of_updated req1 w1 tok1 u1 hasPremium h1 hne1 hu1 hr
    rw [hin] at hc
    simp only [storedAfter, hup, hw, List.getLast?_singleton, Option.getD_some,
      updatedMetadata] at hrec
    have hhp : getProp (u2.app_metadata.getD []) "hasPremium" = .bool hasPremium := by
      have hk := hrec "hasPremium"
      rw [getProp_setProp_other _ _ _ _ (by decide), getProp_setProp_self] at hk
      exact eq_bool_of_nullish _ _ hk
    have hl : getProp (u2.app_metadata.getD []) "lastSubscriptionCheck" = .num w1.now := by
      have hk := hrec "lastSubscriptionCheck"
      rw [getProp_setProp_self] at hk
      exact eq_num_of_nullish _ _ hk
    have hskip : ∃ reason, putPremium req2 w2 = ⟨⟨200, .skipped reason⟩, [.getUser tok2]⟩ := by
      cases hasPremium with
      | false =>
        exact ⟨_, putPremium_of_no_premium req2 w2 tok2 u2 h2 hne2 hu2 (by rw [hhp]; rfl)⟩
      | true =>
        have hnow0 : w1.now ≠ 0 := by
          rcases hnow with h | h
          · exact h
          · cases h
        exact ⟨_, putPremium_of_recent req2 w2 tok2 u2 w1.now h2 hne2 hu2 (by rw [hhp]; rfl)
          hl hnow0 hlt⟩
    obtain ⟨reason, hs⟩ := hskip
    refine ⟨by simpa using hc, ?_, ?_, reason, hs⟩
    · rw [hs]; rfl
    · rw [hs]; rfl

/-- C5 (amended) at a record checked at time 5000 and refreshed at time 6000, and at a
first refresh at time 5000 followed by a second at time 6000. -/
theorem refresh_is_throttled_witness :
    putPremium ⟨some "tok"⟩ soonWorld =
      ⟨⟨200, .skipped "Checked less than 24h ago"⟩, [.getUser "tok"]⟩ ∧
    (authorityCalls (putPremium ⟨some "tok"⟩ firstCheckWorld).effects = 1 ∧
      authorityCalls (putPremium ⟨some "tok2"⟩ secondCheckWorld).effects = 0 ∧
      writes (putPremium ⟨some "tok2"⟩ secondCheckWorld).effects = [] ∧
      ∃ reason, putPremium ⟨some "tok2"⟩ secondCheckWorld =
        ⟨⟨200, .skipped reason⟩, [.getUser "tok2"]⟩) :=
  ⟨refresh_is_throttled.1 ⟨some "tok"⟩ soonWorld "tok" (sampleUser (some checkedRecord)) 5000
      rfl (by decide) rfl (by decide) (by decide) (by decide) (by decide),
   refresh_is_throttled.2 ⟨some "tok"⟩ ⟨some "tok2"⟩ firstCheckWorld secondCheckWorld
      "tok" "tok2" (sampleUser (some [("hasPremium", .bool true)]))
      (sampleUser (some firstCheckedRecord)) true
      rfl (by decide) rfl (by decide) (by decide) (Or.inl (by decide)) rfl (by decide) rfl
      (fun _ => rfl) (by decide)⟩

/-- C5 fails as stated: the user has `hasPremium` true and `lastSubscriptionCheck` set,
to 0, and `now = 1000` is less than 24 hours later, yet `PUT /premium` calls the
authority, writes and answers `updated`. -/
theorem refresh_not_throttled_at_zero_stamp :
    getProp epochCheckRecord "hasPremium" = .bool true ∧
    notNull (getProp epochCheckRecord "lastSubscriptionCheck") = true ∧
    epochCheckWorld.now - 0 < 86400000 ∧
    putPremium ⟨some "tok"⟩ epochCheckWorld =
      ⟨⟨200, .updated false⟩,
       [.getUser "tok", .adaptyFetch "u1",
        .updateUserById "u1"
          [("hasPremium", .bool false), ("lastSubscriptionCheck", .num 1000),
           ("trialExpireDate", .null)]]⟩ ∧
    authorityCalls (putPremium ⟨some "tok"⟩ epochCheckWorld).effects = 1 := by
  decide

/-- A refresh that is due degrades when the authority answers with an error status:
`hasPremium` false and the check time are written and the answer is `updated`. -/
theorem putPremium_of_not_ok (req : TokenRequest) (w : World) (tok : String) (u : User)
    (errText : Option String) (htok : req.accessToken = some tok) (hne : tok ≠ "")
    (hu : w.getUser = .user u)
    (hp : truthy (getProp (u.app_metadata.getD []) "hasPremium") = true)
    (hdue : (truthy (getProp (u.app_metadata.getD []) "lastSubscriptionCheck") &&
      diffLt w.now (getProp (u.app_metadata.getD []) "lastSubscriptionCheck")
        (24 * 60 * 60 * 1000)) = false)
    (hin : includesEmail (parseSkipEmails w.skipAdaptyEmails) u.email = false)
    (had : w.adapty = .notOk errText) (hup : w.update = .ok) :
    putPremium req w =
      ⟨⟨200, .updated false⟩,
       [.getUser tok, .adaptyFetch u.id,
        .updateUserById u.id (updatedMetadata (u.app_metadata.getD []) w.now false)]⟩ := by
  unfold putPremium
  simp only [htok, hu]
  rw [if_neg hne, hdue]
  simp [hp, hin, had, putPremiumFinish, hup]

/-- A refresh that is due does not degrade when the request to the authority is rejected:
the outer `catch` answers 500 and nothing is written. -/
theorem putPremium_of_transport_error (req : TokenRequest) (w : World) (tok : String)
    (u : User) (htok : req.accessToken = some tok) (hne : tok ≠ "")
    (hu : w.getUser = .user u)
    (hp : truthy (getProp (u.app_metadata.getD []) "hasPremium") = true)
    (hdue : (truthy (getProp (u.app_metadata.getD []) "lastSubscriptionCheck") &&
      diffLt w.now (getProp (u.app_metadata.getD []) "lastSubscriptionCheck")
        (24 * 60 * 60 * 1000)) = false)
    (hin : includesEmail (parseSkipEmails w.skipAdaptyEmails) u.email = false)
    (had : w.adapty = .throws) :
    putPremium req w =
      ⟨⟨500, .error "Failed to update premium status"⟩,
       [.getUser tok, .adaptyFetch u.id]⟩ := by
  unfold putPremium
  simp only [htok, hu]
  rw [if_neg hne, hdue]
  simp [hp, hin, had]

/-- C6, the failing input: a refresh is due for a premium user whose email is on no
allow-list and the request to the subscription authority fails at the transport level.
`PUT /premium` then answers 500 `Failed to update premium status` and writes nothing, so
neither `hasPremium` nor `lastSubscriptionCheck` changes. -/
theorem refresh_transport_error_surfaces :
    putPremium ⟨some "tok"⟩ outageWorld =
      ⟨⟨500, .error "Failed to update premium status"⟩,
       [.getUser "tok", .adaptyFetch "u1"]⟩ ∧
    writes (putPremium ⟨some "tok"⟩ outageWorld).effects = [] ∧
    storedAfter (some [("hasPremium", .bool true)]) outageWorld
      (putPremium ⟨some "tok"⟩ outageWorld) = some [("hasPremium", .bool true)] := by
  decide

/-! ## First grant -/

/-- C7: for every user whose `hasPremium` is not already true and whom no allow-list
exempts from the check, whatever the free identifier `skipEmails` resolves to (in index.js
itself: to nothing), if the call to the subscription authority fails, by a transport
error or by an error status, `POST /premium` answers 500, makes no write and leaves the
stored record unchanged. -/
theorem first_grant_fails_hard (g : Globals) (req : TokenRequest) (w : World)
    (tok : String) (u : User)
    (htok : req.accessToken = some tok) (hne : tok ≠ "") (hu : w.getUser = .user u)
    (hp : getProp (u.app_metadata.getD []) "hasPremium" ≠ .bool true)
    (hby : ∀ l, g.skipEmails = some l → includesEmail l u.email = false)
    (hfail : w.adapty = .throws ∨ ∃ errText, w.adapty = .notOk errText) :
    (postPremium g req w).response.status = 500 ∧
    writes (postPremium g req w).effects = [] ∧
    storedAfter u.app_metadata w (postPremium g req w) = u.app_metadata := by
  unfold postPremium
  simp only [htok, hu]
  rw [if_neg hne, if_neg hp]
  cases hg : g.skipEmails with
  | none => simp [writes, storedAfter]
  | some l =>
    simp only [hby l hg]
    rcases hfail with h | ⟨errText, h⟩
    · simp [h, writes, storedAfter]
    · cases errText <;> simp [h, writes, storedAfter]

/-- C7 in index.js as it is, where `skipEmails` is unresolvable, and with `skipEmails`
bound to an empty list, where the authority is called and answers with an error. -/
theorem first_grant_fails_hard_witness :
    ((postPremium moduleGlobals ⟨some "tok"⟩ refusedWorld).response.status = 500 ∧
      writes (postPremium moduleGlobals ⟨some "tok"⟩ refusedWorld).effects = [] ∧
      storedAfter none refusedWorld (postPremium moduleGlobals ⟨some "tok"⟩ refusedWorld)
        = none) ∧
    ((postPremium ⟨some [], false⟩ ⟨some "tok"⟩ refusedWorld).response.status = 500 ∧
      writes (postPremium ⟨some [], false⟩ ⟨some "tok"⟩ refusedWorld).effects = [] ∧
      storedAfter none refusedWorld (postPremium ⟨some [], false⟩ ⟨some "tok"⟩ refusedWorld)
        = none) :=
  ⟨first_grant_fails_hard moduleGlobals ⟨some "tok"⟩ refusedWorld "tok" (sampleUser none)
      rfl (by decide) rfl (by decide) (by intro l h; cases h) (Or.inr ⟨_, rfl⟩),
   first_grant_fails_hard ⟨some [], false⟩ ⟨some "tok"⟩ refusedWorld "tok" (sampleUser none)
      rfl (by decide) rfl (by decide) (by intro l h; cases h; rfl) (Or.inr ⟨_, rfl⟩)⟩

/-- In index.js as it is, `POST /premium` never grants: whatever the request and the
collaborators, it makes no write, calls the authority never, and does not answer 200. -/
theorem postPremium_module_never_grants (req : TokenRequest) (w : World) :
    writes (postPremium moduleGlobals req w).effects = [] ∧
    authorityCalls (postPremium moduleGlobals req w).effects = 0 ∧
    (postPremium moduleGlobals req w).response.status ≠ 200 := by
  unfold postPremium moduleGlobals
  cases req.accessToken with
  | none => simp [writes, authorityCalls]
  | some tok =>
    by_cases hne : tok = ""
    · simp [hne, writes, authorityCalls]
    · simp only [if_neg hne]
      cases w.getUser with
      | throws => simp [writes, authorityCalls]
      | failed => simp [writes, authorityCalls]
      | user u =>
        by_cases hp : getProp (u.app_metadata.getD []) "hasPremium" = .bool true
        · simp [hp, writes, authorityCalls]
        · simp [hp, writes, authorityCalls]

/-- With `skipEmails` bound to the list `PUT /premium` builds from the environment, the
bypass of `POST /premium` would work: no authority call, `hasPremium: true` written, and
success whenever the write succeeds. -/
theorem postPremium_bypass_if_bound (l : List String) (admin : Bool) (req : TokenRequest)
    (w : World) (tok : String) (u : User)
    (htok : req.accessToken = some tok) (hne : tok ≠ "") (hu : w.getUser = .user u)
    (hp : getProp (u.app_metadata.getD []) "hasPremium" ≠ .bool true)
    (hin : includesEmail l u.email = true) (hup : w.update = .ok) :
    (postPremium ⟨some l, admin⟩ req w).response = ⟨200, .premium true⟩ ∧
    authorityCalls (postPremium ⟨some l, admin⟩ req w).effects = 0 ∧
    ∃ b, writes (postPremium ⟨some l, admin⟩ req w).effects = [b] ∧
      getProp b "hasPremium" = .bool true := by
  unfold postPremium
  simp only [htok, hu]
  rw [if_neg hne, if_neg hp]
  rw [if_pos hin]
  unfold postPremiumFinish
  rw [if_pos rfl, hup]
  refine ⟨rfl, rfl, _, rfl, ?_⟩
  rw [getProp_setProp_other _ _ _ _ (by decide), getProp_setProp_self]

/-- The sibling path: on a refresh that is due, `PUT /premium` honours the allow-list
without calling the authority. -/
theorem putPremium_bypass (req : TokenRequest) (w : World) (tok : String) (u : User)
    (htok : req.accessToken = some tok) (hne : tok ≠ "") (hu : w.getUser = .user u)
    (hp : truthy (getProp (u.app_metadata.getD []) "hasPremium") = true)
    (hdue : (truthy (getProp (u.app_metadata.getD []) "lastSubscriptionCheck") &&
      diffLt w.now (getProp (u.app_metadata.getD []) "lastSubscriptionCheck")
        (24 * 60 * 60 * 1000)) = false)
    (hin : includesEmail (parseSkipEmails w.skipAdaptyEmails) u.email = true)
    (hup : w.update = .ok) :
    putPremium req w =
      ⟨⟨200, .updated true⟩,
       [.getUser tok,
        .updateUserById u.id (updatedMetadata (u.app_metadata.getD []) w.now true)]⟩ := by
  unfold putPremium
  simp only [htok, hu]
  rw [if_neg hne, hdue]
  simp [hp, hin, putPremiumFinish, hup]

/-- C8, the failing input: the user has no `hasPremium` and the email `Ann@Example.com`,
and `SKIP_ADAPTY_EMAILS` lists `ann@example.com`.  The email is on the list as
`PUT /premium` would build it, yet `POST /premium` answers 500
`Failed to update premium status`, because `skipEmails` is not declared where it is
used, and it writes nothing. -/
theorem allow_list_bypass_throws_in_first_grant :
    includesEmail (parseSkipEmails allowListedWorld.skipAdaptyEmails)
      (sampleUser none).email = true ∧
    postPremium moduleGlobals ⟨some "tok"⟩ allowListedWorld =
      ⟨⟨500, .error "Failed to update premium status"⟩, [.getUser "tok"]⟩ ∧
    writes (postPremium moduleGlobals ⟨some "tok"⟩ allowListedWorld).effects = [] := by
  decide

/-! ## Merge writes -/

theorem writes_append (a b : List Effect) : writes (a ++ b) = writes a ++ writes b := by
  induction a with
  | nil => rfl
  | cons c rest ih => cases c <;> simp [writes, ih]

/-- The only bag `POST /trial` ever writes. -/
theorem mem_writes_postTrial (req : TokenRequest) (w : World) (u : User) (b : Bag)
    (hu : w.getUser = .user u) (hb : b ∈ writes (postTrial req w).effects) :
    b = setProp (setProp (u.app_metadata.getD []) "trialExpireDate"
          (.num (u.created_at + 7 * 24 * 60 * 60 * 1000)))
        "hasPremium" (nullish (getProp (u.app_metadata.getD []) "hasPremium") (.bool false)) := by
  unfold postTrial at hb
  simp only [hu] at hb
  split at hb
  · simp [writes] at hb
  · split_ifs at hb
    · simp [writes] at hb
    · simp [writes] at hb
    · cases hup : w.update <;> simp [hup, writes] at hb <;> exact hb

/-- The only bag `POST /premium` ever writes. -/
theorem mem_writes_postPremium (g : Globals) (req : TokenRequest) (w : World) (u : User)
    (b : Bag) (hu : w.getUser = .user u) (hb : b ∈ writes (postPremium g req w).effects) :
    b = setProp (setProp (u.app_metadata.getD []) "hasPremium" (.bool true))
        "trialExpireDate" (nullish (getProp (u.app_metadata.getD []) "trialExpireDate") .null) := by
  have hfin : ∀ (hasPremium : Bool) (calls : List Effect), writes calls = [] →
      b ∈ writes (postPremiumFinish u.id (u.app_metadata.getD []) hasPremium w calls).effects →
      b = setProp (setProp (u.app_metadata.getD []) "hasPremium" (.bool true))
        "trialExpireDate"
        (nullish (getProp (u.app_metadata.getD []) "trialExpireDate") .null) := by
    intro hasPremium calls hc hb
    have hw : ∀ (m : Bag), writes (calls ++ [Effect.updateUserById u.id m]) = [m] := by
      intro m
      rw [writes_append, hc]
      rfl
    unfold postPremiumFinish at hb
    cases hasPremium with
    | false => simp [hc] at hb
    | true =>
      cases hup : w.update <;> simp [hup, hw] at hb <;> exact hb
  unfold postPremium at hb
  simp only [hu] at hb
  split at hb
  · simp [writes] at hb
  · split_ifs at hb
    · simp [writes] at hb
    · simp [writes] at hb
    · split at hb
      · simp [writes] at hb
      · split_ifs at hb
        · exact hfin _ _ (by rfl) hb
        · split at hb
          all_goals first
            | (exact hfin _ _ (by rfl) hb)
            | (simp [writes] at hb)

/-- The only bag `PUT /premium` ever writes is `updatedMetadata` at the request time. -/
theorem mem_writes_putPremium (req : TokenRequest) (w : World) (u : User) (b : Bag)
    (hu : w.getUser = .user u) (hb : b ∈ writes (putPremium req w).effects) :
    ∃ hasPremium, b = updatedMetadata (u.app_metadata.getD []) w.now hasPremium := by
  have hfin : ∀ (hasPremium : Bool) (calls : List Effect), writes calls = [] →
      b ∈ writes (putPremiumFinish u.id (u.app_metadata.getD []) w.now hasPremium w
        calls).effects →
      ∃ hasPremium, b = updatedMetadata (u.app_metadata.getD []) w.now hasPremium := by
    intro hasPremium calls hc hb
    have hw : ∀ (m : Bag), writes (calls ++ [Effect.updateUserById u.id m]) = [m] := by
      intro m
      rw [writes_append, hc]
      rfl
    unfold putPremiumFinish at hb
    refine ⟨hasPremium, ?_⟩
    cases hup : w.update <;> simp [hup, hw] at hb <;> exact hb
  unfold putPremium at hb
  simp only [hu] at hb
  split at hb
  · simp [writes] at hb
  · split_ifs at hb
    all_goals try (exact absurd hb (by simp [writes]))
    · exact hfin _ _ (by rfl) hb
    · split at hb
      all_goals first
        | (exact hfin _ _ (by rfl) hb)
        | (simp [writes] at hb)

/-- What `v ?? null` evaluates to. -/
theorem nullish_null (v : JsVal) :
    nullish v .null = if v = .undefined then .null else v := by
  cases v <;> simp [nullish]

/-- C9: every bag `POST /trial`, `POST /premium` (whatever `skipEmails` resolves to) or
`PUT /premium` passes to the identity provider keeps each key the operation does not own
exactly as it was in the prior bag, present or absent.  The trial write owns
`trialExpireDate` and `hasPremium`, so `lastSubscriptionCheck` is unchanged; the grant
owns `hasPremium` and `trialExpireDate`; the refresh owns `hasPremium`,
`lastSubscriptionCheck` and `trialExpireDate`; and both premium writes set
`trialExpireDate` to its prior value, or to `null` when it was missing. -/
theorem merge_writes_keep_other_keys :
    (∀ (req : TokenRequest) (w : World) (u : User) (b : Bag), w.getUser = .user u →
      b ∈ writes (postTrial req w).effects →
      (∀ key, key ≠ "trialExpireDate" → key ≠ "hasPremium" →
        lookupProp b key = lookupProp (u.app_metadata.getD []) key) ∧
      lookupProp b "lastSubscriptionCheck" =
        lookupProp (u.app_metadata.getD []) "lastSubscriptionCheck") ∧
    (∀ (g : Globals) (req : TokenRequest) (w : World) (u : User) (b : Bag),
      w.getUser = .user u → b ∈ writes (postPremium g req w).effects →
      (∀ key, key ≠ "hasPremium" → key ≠ "trialExpireDate" →
        lookupProp b key = lookupProp (u.app_metadata.getD []) key) ∧
      getProp b "trialExpireDate" =
        if getProp (u.app_metadata.getD []) "trialExpireDate" = .undefined then .null
        else getProp (u.app_metadata.getD []) "trialExpireDate") ∧
    (∀ (req : TokenRequest) (w : World) (u : User) (b : Bag), w.getUser = .user u →
      b ∈ writes (putPremium req w).effects →
      (∀ key, key ≠ "trialExpireDate" → key ≠ "hasPremium" →
        key ≠ "lastSubscriptionCheck" →
        lookupProp b key = lookupProp (u.app_metadata.getD []) key) ∧
      getProp b "trialExpireDate" =
        if getProp (u.app_metadata.getD []) "trialExpireDate" = .undefined then .null
        else getProp (u.app_metadata.getD []) "trialExpireDate") := by
  refine ⟨?_, ?_, ?_⟩
  · intro req w u b hu hb
    rw [mem_writes_postTrial req w u b hu hb]
    refine ⟨?_, ?_⟩
    · intro key h1 h2
      rw [lookupProp_setProp_other _ _ _ _ h2, lookupProp_setProp_other _ _ _ _ h1]
    · rw [lookupProp_setProp_other _ _ _ _ (by decide),
        lookupProp_setProp_other _ _ _ _ (by decide)]
  · intro g req w u b hu hb
    rw [mem_writes_postPremium g req w u b hu hb]
    refine ⟨?_, ?_⟩
    · intro key h1 h2
      rw [lookupProp_setProp_other _ _ _ _ h2, lookupProp_setProp_other _ _ _ _ h1]
    · rw [getProp_setProp_self, nullish_null]
  · intro req w u b hu hb
    obtain ⟨hasPremium, hbb⟩ := mem_writes_putPremium req w u b hu hb
    rw [hbb]
    unfold updatedMetadata
    refine ⟨?_, ?_⟩
    · intro key h1 h2 h3
      rw [lookupProp_setProp_other _ _ _ _ h3, lookupProp_setProp_other _ _ _ _ h2,
        lookupProp_setProp_other _ _ _ _ h1]
    · rw [getProp_setProp_other _ _ _ _ (by decide),
        getProp_setProp_other _ _ _ _ (by decide), getProp_setProp_self, nullish_null]

/-- C9 on bags that hold a key `plan` the program does not know: the trial write and the
refresh of `premiumRecord`, and a grant to `mixedRecord` with `skipEmails` bound. -/
theorem merge_writes_keep_other_keys_witness :
    (lookupProp [("plan", .num 3), ("hasPremium", .bool true),
        ("lastSubscriptionCheck", .num 42), ("trialExpireDate", .num 604801000)] "plan" =
        lookupProp premiumRecord "plan" ∧
      lookupProp [("plan", .num 3), ("hasPremium", .bool true),
        ("lastSubscriptionCheck", .num 42), ("trialExpireDate", .num 604801000)]
        "lastSubscriptionCheck" = lookupProp premiumRecord "lastSubscriptionCheck") ∧
    (lookupProp [("plan", .num 3), ("trialExpireDate", .num 777),
        ("lastSubscriptionCheck", .num 42), ("hasPremium", .bool true)]
        "lastSubscriptionCheck" = lookupProp mixedRecord "lastSubscriptionCheck" ∧
      getProp [("plan", .num 3), ("trialExpireDate", .num 777),
        ("lastSubscriptionCheck", .num 42), ("hasPremium", .bool true)] "trialExpireDate" =
        if getProp mixedRecord "trialExpireDate" = .undefined then .null
        else getProp mixedRecord "trialExpireDate") ∧
    (lookupProp [("plan", .num 3), ("hasPremium", .bool true),
        ("lastSubscriptionCheck", .num 900000000), ("trialExpireDate", .null)] "plan" =
        lookupProp premiumRecord "plan" ∧
      getProp [("plan", .num 3), ("hasPremium", .bool true),
        ("lastSubscriptionCheck", .num 900000000), ("trialExpireDate", .null)]
        "trialExpireDate" =
        if getProp premiumRecord "trialExpireDate" = .undefined then .null
        else getProp premiumRecord "trialExpireDate") :=
  ⟨⟨(merge_writes_keep_other_keys.1 ⟨some "tok"⟩ (mergeWorld premiumRecord)
        (sampleUser (some premiumRecord)) _ rfl (by decide)).1 "plan" (by decide) (by decide),
    (merge_writes_keep_other_keys.1 ⟨some "tok"⟩ (mergeWorld premiumRecord)
        (sampleUser (some premiumRecord)) _ rfl (by decide)).2⟩,
   ⟨(merge_writes_keep_other_keys.2.1 ⟨some ["ann@example.com"], false⟩ ⟨some "tok"⟩
        (mergeWorld mixedRecord) (sampleUser (some mixedRecord)) _ rfl (by decide)).1
        "lastSubscriptionCheck" (by decide) (by decide),
    (merge_writes_keep_other_keys.2.1 ⟨some ["ann@example.com"], false⟩ ⟨some "tok"⟩
        (mergeWorld mixedRecord) (sampleUser (some mixedRecord)) _ rfl (by decide)).2⟩,
   ⟨(merge_writes_keep_other_keys.2.2 ⟨some "tok"⟩ (mergeWorld premiumRecord)
        (sampleUser (some premiumRecord)) _ rfl (by decide)).1 "plan"
        (by decide) (by decide) (by decide),
    (merge_writes_keep_other_keys.2.2 ⟨some "tok"⟩ (mergeWorld premiumRecord)
        (sampleUser (some premiumRecord)) _ rfl (by decide)).2⟩⟩

/-! ## The AI endpoints -/

/-- In index.js as it is, where `admin` is unresolvable, the shared body of the AI handlers
answers 500 with the message of the `ReferenceError` and calls nobody. -/
theorem aiGenerate_module (idToken userPrompt : String) (w : World) :
    aiGenerate moduleGlobals idToken userPrompt w =
      ⟨⟨500, .error "admin is not defined"⟩, []⟩ := by
  unfold aiGenerate moduleGlobals
  rfl

/-- In index.js as it is, the AI handlers answer 400 or 500 whatever the request: never
403 and never 200. -/
theorem ai_module_status (w : World) :
    (∀ req : SuggestionsRequest,
      (postAiSuggestions moduleGlobals req w).response.status = 400 ∨
      (postAiSuggestions moduleGlobals req w).response.status = 500) ∧
    (∀ req : ParseRequest,
      (postAiParse moduleGlobals req w).response.status = 400 ∨
      (postAiParse moduleGlobals req w).response.status = 500) := by
  constructor
  · intro req
    unfold postAiSuggestions
    split
    · split_ifs <;> simp [aiGenerate_module]
    · simp
  · intro req
    unfold postAiParse
    split
    · split_ifs <;> simp [aiGenerate_module]
    · simp

/-- With `admin` bound, the gate of the AI handlers would answer as specified: 403 for
claims the gate denies, and 200 with the cleaned text for claims it admits when the
generation returns a non-empty text. -/
theorem aiGenerate_if_admin_bound (g : Globals) (idToken userPrompt uid : String)
    (claims : Bag) (w : World) (hg : g.admin = true)
    (hv : w.verifyIdToken = .decoded uid claims) :
    (noPermissions claims w.now = true →
      aiGenerate g idToken userPrompt w =
        ⟨⟨403, .error "User has no permissions for AI suggestions"⟩,
         [.verifyIdToken idToken]⟩) ∧
    (∀ rawSuggestions, noPermissions claims w.now = false →
      w.completion = .content (some rawSuggestions) → rawSuggestions ≠ "" →
      aiGenerate g idToken userPrompt w =
        ⟨⟨200, .suggestions (cleanSuggestions rawSuggestions)⟩,
         [.verifyIdToken idToken, .chatCompletion uid userPrompt]⟩) := by
  unfold aiGenerate
  constructor
  · intro hn
    simp [hg, hv, hn]
  · intro raw hn hc hne
    simp [hg, hv, hn, hc, hne]

/-- C10, the failing input: well-formed requests to `POST /ai/suggestions` and
`POST /ai/parse` whose token decodes to `hasPremium: false` with no `trialExpireDate`,
claims the gate denies.  Both handlers answer 500 `admin is not defined` instead of 403:
`admin` is not declared, so the `try` block throws before the token is verified and
before the gate is reached. -/
theorem ai_gate_rejection_is_a_500 :
    noPermissions [("hasPremium", .bool false)] unentitledWorld.now = true ∧
    postAiSuggestions moduleGlobals sampleSuggestions unentitledWorld =
      ⟨⟨500, .error "admin is not defined"⟩, []⟩ ∧
    postAiParse moduleGlobals sampleParse unentitledWorld =
      ⟨⟨500, .error "admin is not defined"⟩, []⟩ := by
  decide

end Chklstly
